import Mathlib

/-!
# wpadremap: tablet pad buttons bridged to a Wayland virtual keyboard

A shallow embedding of `src/main.c`.  Every C function that the properties
below talk about is a Lean function with the same name.  Effects are made
explicit: a function returns a `Run`, the list of externally visible
operations it performed (its trace, in program order) together with the way
it ended (`returned`, or `exited` through `exit`).  Values that come from
libinput, libwayland, xkbcommon or libc are read from an explicit
environment.

Machine integers: `unsigned int` and `uint32_t` are naturals below `2 ^ 32`,
`int` is an integer, and the conversion `pad_button_to_keycode` performs on
return is the function `to_int`.  The prototypes of the protocol requests
live in a generated header that is not part of the sources; a request is
recorded with the argument values the source passes to it.
-/

namespace Wpadremap

/-! ## Constants -/

/-- From `enum modifiers`: no modifier. -/
def MOD_NONE : Int := 0

/-- From `enum modifiers`: the alternate modifier. -/
def MOD_ALT : Int := 8

/-- The status `exit(EXIT_FAILURE)` reports. -/
def EXIT_FAILURE : Int := 1

/-- The protocol constant `WL_KEYBOARD_KEYMAP_FORMAT_XKB_V1`. -/
def WL_KEYBOARD_KEYMAP_FORMAT_XKB_V1 : Int := 1

/-! ## Machine integers -/

/-- Conversion of an `unsigned int` value to `int` (32 bit, two-complement). -/
def to_int (n : Nat) : Int :=
  if n % 2 ^ 32 < 2 ^ 31 then ((n % 2 ^ 32 : Nat) : Int)
  else ((n % 2 ^ 32 : Nat) : Int) - 2 ^ 32

/-! ## Data model -/

/-- The two values of `enum libinput_button_state`. -/
inductive libinput_button_state
  | LIBINPUT_BUTTON_STATE_RELEASED
  | LIBINPUT_BUTTON_STATE_PRESSED
deriving DecidableEq, Repr

/-- The two values of `enum wl_keyboard_key_state`. -/
inductive wl_keyboard_key_state
  | WL_KEYBOARD_KEY_STATE_RELEASED
  | WL_KEYBOARD_KEY_STATE_PRESSED
deriving DecidableEq, Repr

/-- The values of `enum libinput_event_type` that `handle_libinput_events`
names in its `switch`; every other value is `OTHER code`.
`LIBINPUT_EVENT_NONE` is what `libinput_next_event_type` answers for an empty
queue; `libinput_get_event` returns `NULL` on an empty queue, so no event it
returns has that type, and the arm of the `switch` for it is defensive. -/
inductive libinput_event_type
  | LIBINPUT_EVENT_NONE
  | LIBINPUT_EVENT_DEVICE_ADDED
  | LIBINPUT_EVENT_DEVICE_REMOVED
  | LIBINPUT_EVENT_TABLET_PAD_BUTTON
  | OTHER (code : Nat)
deriving DecidableEq, Repr

/-- What the code reads from a `struct libinput_event`: its type
(`libinput_event_get_type`) and, for a tablet pad button event, the button
number (`libinput_event_tablet_pad_get_button_number`, a `uint32_t`) and the
button state (`libinput_event_tablet_pad_get_button_state`). -/
structure libinput_event where
  type : libinput_event_type
  button_number : Nat
  button_state : libinput_button_state
deriving DecidableEq, Repr

/-- The number the conversion `%d` of `vfprintf` writes when the argument
passed for it is an `unsigned int`: the argument read as an `int`. -/
def printf_d_of_unsigned (arg : Nat) : Int :=
  to_int arg

/-- The lines the program writes to standard error, one constructor per
format string of the source; a number is the number the written line shows
in place of its `%d`. -/
inductive LogLine
  /-- `"Unmapped pad button %d! Add it to pad_button_to_keycode!"` -/
  | unmapped_pad_button (shown_button : Int)
  /-- `"Pad button %d mapped to keycode %d %s"`; the flag is `is_pressed`,
  shown as `"pressed"` or `"released"`. -/
  | pad_button_mapped (shown_button : Int) (keycode : Int) (is_pressed : Bool)
  /-- `"Got LIBINPUT_EVENT_NONE"` -/
  | got_libinput_event_none
  /-- `"Unable to create the XKB context"` -/
  | no_xkb_context
  /-- `"Unable to create a keymap"` -/
  | no_keymap
  /-- `"Failed to create the temporary keymap file"` -/
  | no_keymap_file
  /-- `"Wayland connection failed"` -/
  | no_wayland_connection
  /-- `"Unable to create the virtual keyboard"` -/
  | no_virtual_keyboard
  /-- `"Entering the event loop\n"` -/
  | entering_event_loop
deriving DecidableEq, Repr

/-- A bound protocol object: the global name and the version given to
`wl_registry_bind`.  A `NULL` pointer is `none : Option Proxy`. -/
structure Proxy where
  name : Nat
  version : Nat
deriving DecidableEq, Repr

/-- The externally visible operations of the program, named after the library
call that performs them.  Calls whose result a property talks about carry
that result. -/
inductive Op
  /-- A line written through `log_print` or `fail`. -/
  | log (line : LogLine)
  /-- The request `zwp_virtual_keyboard_v1_modifiers`. -/
  | zwp_virtual_keyboard_v1_modifiers (depressed latched locked group : Int)
  /-- The request `zwp_virtual_keyboard_v1_key`. -/
  | zwp_virtual_keyboard_v1_key (time key : Int) (state : wl_keyboard_key_state)
  /-- The request `zwp_virtual_keyboard_v1_keymap`. -/
  | zwp_virtual_keyboard_v1_keymap (format : Int) (fd : Int) (size : Nat)
  | libinput_dispatch
  | wl_display_prepare_read (result : Int)
  | wl_display_dispatch_pending
  | wl_display_flush (result : Int)
  | wl_display_read_events (result : Int)
  | poll
  | wl_display_connect
  | wl_display_get_registry
  | wl_registry_add_listener
  | wl_display_dispatch
  | wl_display_roundtrip
  | wl_registry_bind (name : Nat) (interface : String) (version : Nat)
  | zwp_virtual_keyboard_manager_v1_create_virtual_keyboard
      (manager seat : Option Proxy)
  | xkb_context_new
  | xkb_keymap_new_from_names
  | xkb_keymap_get_as_string
  | mkstemp (fd : Int)
  | unlink
  | fdopen (fd : Int)
  /-- The call `fwrite(ptr, 1, n, f)`: the `n` bytes handed over. -/
  | fwrite (bytes : List Nat)
  | fflush
  | fclose (fd : Int)
deriving DecidableEq, Repr

/-- How a run ended: the function returned, the process left through `exit`,
or (for the endless `event_loop` only) the run is still going on when the
observation stops. -/
inductive Outcome
  | returned
  | exited (status : Int)
  | running
deriving DecidableEq, Repr

/-- A run of a function: the operations performed, in order, and the way the
run ended. -/
structure Run where
  trace : List Op
  outcome : Outcome
deriving DecidableEq, Repr

/-- Sequential composition `first; next`: `next` runs only when `first`
returned. -/
def Run.andThen (first next : Run) : Run :=
  match first.outcome with
  | Outcome.returned => ⟨first.trace ++ next.trace, next.outcome⟩
  | _ => first

/-- A run that performs the given operations and returns. -/
def Run.ops (l : List Op) : Run := ⟨l, Outcome.returned⟩

/-- The function `fail`: write the message to standard error, then
`exit(EXIT_FAILURE)`. -/
def fail (line : LogLine) : Run :=
  ⟨[Op.log line], Outcome.exited EXIT_FAILURE⟩

/-- The function `log_print`: write the message to standard error. -/
def log_print (line : LogLine) : Run :=
  Run.ops [Op.log line]

/-- Whether an operation is a command sent to the virtual keyboard object. -/
def Op.is_vk_command : Op → Bool
  | Op.zwp_virtual_keyboard_v1_modifiers _ _ _ _ => true
  | Op.zwp_virtual_keyboard_v1_key _ _ _ => true
  | Op.zwp_virtual_keyboard_v1_keymap _ _ _ => true
  | _ => false

/-- The virtual-keyboard commands of a trace, in order. -/
def vk_commands (t : List Op) : List Op :=
  t.filter Op.is_vk_command

/-- The log lines of a trace, in order. -/
def log_lines (t : List Op) : List LogLine :=
  t.filterMap fun op => match op with
    | Op.log line => some line
    | _ => none

/-! ## The translator -/

/-- The function `pad_button_to_keycode`.  The parameter is an
`unsigned int`, the result an `int`; `button + 1` is computed in
`unsigned int` and converted on return. -/
def pad_button_to_keycode (button : Nat) : Int :=
  if button ≥ 1 ∧ button ≤ 9 then
    to_int ((button + 1) % 2 ^ 32)
  else if button = 0 then
    11
  else
    -1

/-- The function `handle_libinput_tablet_pad_button`. -/
def handle_libinput_tablet_pad_button (ev : libinput_event) : Run :=
  let pad_button := ev.button_number
  let state := ev.button_state
  let modifiers := MOD_ALT
  let is_pressed : Bool :=
    state = libinput_button_state.LIBINPUT_BUTTON_STATE_PRESSED
  let keycode := pad_button_to_keycode pad_button
  if keycode < 0 then
    log_print (LogLine.unmapped_pad_button (printf_d_of_unsigned pad_button))
  else
    (log_print (LogLine.pad_button_mapped (printf_d_of_unsigned pad_button) keycode
        is_pressed)).andThen
      (Run.ops [
        Op.zwp_virtual_keyboard_v1_modifiers
          (if is_pressed then modifiers else 0) 0 0 0,
        Op.zwp_virtual_keyboard_v1_key 0 keycode
          (if is_pressed then wl_keyboard_key_state.WL_KEYBOARD_KEY_STATE_PRESSED
           else wl_keyboard_key_state.WL_KEYBOARD_KEY_STATE_RELEASED)])

/-- The `while ((ev = libinput_get_event(wpr->li)))` loop of
`handle_libinput_events`, over the events the queue holds; the loop ends when
the queue is empty. -/
def drain_events : List libinput_event → Run
  | [] => Run.ops []
  | ev :: queue =>
    match ev.type with
    | libinput_event_type.LIBINPUT_EVENT_NONE =>
      fail LogLine.got_libinput_event_none
    | libinput_event_type.LIBINPUT_EVENT_DEVICE_ADDED =>
      drain_events queue
    | libinput_event_type.LIBINPUT_EVENT_DEVICE_REMOVED =>
      drain_events queue
    | libinput_event_type.LIBINPUT_EVENT_TABLET_PAD_BUTTON =>
      (handle_libinput_tablet_pad_button ev).andThen (drain_events queue)
    | libinput_event_type.OTHER _ =>
      drain_events queue

/-- The function `handle_libinput_events`; `queue` is what
`libinput_dispatch` made available. -/
def handle_libinput_events (queue : List libinput_event) : Run :=
  (Run.ops [Op.libinput_dispatch]).andThen (drain_events queue)

/-- A tablet pad button event. -/
def pad_button_event (button : Nat) (state : libinput_button_state) :
    libinput_event :=
  ⟨libinput_event_type.LIBINPUT_EVENT_TABLET_PAD_BUTTON, button, state⟩

/-- The virtual-keyboard commands `handle_libinput_events` emits for a queue
of drained events. -/
def emitted_commands (queue : List libinput_event) : List Op :=
  vk_commands (handle_libinput_events queue).trace

/-! ## The reactor -/

/-- What the libraries answer while `event_loop` runs: the result of the
`k`-th call of `wl_display_prepare_read`, of `wl_display_flush` and of
`wl_display_read_events`, and the queue of events the `k`-th call of
`handle_libinput_events` finds. -/
structure LoopEnv where
  prepare_read : Nat → Int
  flush : Nat → Int
  read_events : Nat → Int
  events : Nat → List libinput_event

/-- How many calls of each kind `event_loop` has made so far. -/
structure Calls where
  prepare_read : Nat
  flush : Nat
  read_events : Nat
  handle_events : Nat
deriving DecidableEq, Repr

/-- The `while (true)` loop of `event_loop`.  The loop never ends by itself,
so a run is observed for a bounded number of steps: one unit of `fuel` is one
evaluation of the inner condition `wl_display_prepare_read(...) != 0`,
followed either by the inner body (when the call failed) or by the rest of
the outer body (when it succeeded).  When the fuel is used up the run is
still `running`. -/
def event_loop_cycles : Nat → LoopEnv → Calls → Run
  | 0, _, _ => ⟨[], Outcome.running⟩
  | fuel + 1, env, c =>
    let r := env.prepare_read c.prepare_read
    if r ≠ 0 then
      (Run.ops [Op.wl_display_prepare_read r,
                Op.wl_display_dispatch_pending,
                Op.wl_display_flush (env.flush c.flush)]).andThen
        (event_loop_cycles fuel env
          { c with prepare_read := c.prepare_read + 1, flush := c.flush + 1 })
    else
      ((Run.ops [Op.wl_display_prepare_read r, Op.poll]).andThen
        (handle_libinput_events (env.events c.handle_events))).andThen
      ((Run.ops [Op.wl_display_flush (env.flush c.flush),
                 Op.wl_display_read_events (env.read_events c.read_events),
                 Op.wl_display_dispatch_pending]).andThen
        (event_loop_cycles fuel env
          { prepare_read := c.prepare_read + 1,
            flush := c.flush + 1,
            read_events := c.read_events + 1,
            handle_events := c.handle_events + 1 }))

/-- The function `event_loop`, observed for `fuel` steps: the line
`"Entering the event loop"` written with `fprintf(stderr, ...)`, then the
`while (true)` loop. -/
def event_loop (fuel : Nat) (env : LoopEnv) : Run :=
  (Run.ops [Op.log LogLine.entering_event_loop]).andThen
    (event_loop_cycles fuel env ⟨0, 0, 0, 0⟩)

/-- Whether an operation is a call of `wl_display_prepare_read`. -/
def Op.is_prepare_read : Op → Bool
  | Op.wl_display_prepare_read _ => true
  | _ => false

/-- Whether an operation is `poll` or a call of `wl_display_prepare_read`. -/
def Op.is_wait_step : Op → Bool
  | Op.poll => true
  | Op.wl_display_prepare_read _ => true
  | _ => false

/-- The two ordering properties of a reactor trace, used as the induction
invariant: the trace does not start with `poll`; every `poll` directly
follows a `wl_display_prepare_read` that returned `0`; every failed
`wl_display_prepare_read` is directly followed by
`wl_display_dispatch_pending`, then `wl_display_flush`, then (when the trace
goes on) the next `wl_display_prepare_read`. -/
def PollGuarded (t : List Op) : Prop :=
  t[0]? ≠ some Op.poll
  ∧ (∀ i, t[i + 1]? = some Op.poll → t[i]? = some (Op.wl_display_prepare_read 0))
  ∧ (∀ i r, r ≠ 0 → t[i]? = some (Op.wl_display_prepare_read r) →
      t[i + 1]? = some Op.wl_display_dispatch_pending
      ∧ (∃ f, t[i + 2]? = some (Op.wl_display_flush f))
      ∧ (∀ op, t[i + 3]? = some op → ∃ r2, op = Op.wl_display_prepare_read r2))

/-- An environment in which every flush and every read of the protocol
connection reports failure (`-1`), `wl_display_prepare_read` always succeeds
and no input event arrives. -/
def failing_connection : LoopEnv :=
  { prepare_read := fun _ => 0,
    flush := fun _ => -1,
    read_events := fun _ => -1,
    events := fun _ => [] }

/-! ## Start-up -/

/-- The name of `wl_seat_interface`. -/
def wl_seat_interface_name : String := "wl_seat"

/-- The name of `zwp_virtual_keyboard_manager_v1_interface`. -/
def zwp_virtual_keyboard_manager_v1_interface_name : String :=
  "zwp_virtual_keyboard_manager_v1"

/-- The fields of `struct wpadremap` that start-up reads back: the bound
seat and the bound virtual-keyboard manager (`none` is `NULL`). -/
structure wpadremap where
  seat : Option Proxy
  manager : Option Proxy
deriving DecidableEq, Repr

/-- The state `main` starts from: `memset(&wpr, 0, sizeof(wpr))`. -/
def wpadremap.zeroed : wpadremap := ⟨none, none⟩

/-- A global object announced by the registry: the arguments of the
`global` listener. -/
structure Global where
  name : Nat
  interface : String
  version : Nat
deriving DecidableEq, Repr

/-- What the libraries answer during start-up: whether `wl_display_connect`,
`xkb_context_new` and `xkb_keymap_new_from_names` return a non-`NULL`
pointer, the globals announced while `wl_display_dispatch` and while
`wl_display_roundtrip` run, the memory at the pointer
`xkb_keymap_get_as_string` returns, and the descriptor `mkstemp` returns.
Calls whose result the code never examines are taken in their success
case. -/
structure InitEnv where
  connect_ok : Bool
  globals_on_dispatch : List Global
  globals_on_roundtrip : List Global
  xkb_context_ok : Bool
  keymap_ok : Bool
  keymap_string : List Nat
  mkstemp_fd : Int

/-- The function `strlen`: the number of bytes before the first zero byte.
The result type `size_t` holds the length of any string in memory. -/
def strlen : List Nat → Nat
  | [] => 0
  | c :: rest => if c = 0 then 0 else strlen rest + 1

/-- The listener `handle_wl_event`: the updated state and the bind it
performs, if any. -/
def handle_wl_event (wpr : wpadremap) (name : Nat) (interface : String)
    (version : Nat) : wpadremap × List Op :=
  if interface = wl_seat_interface_name then
    ({ wpr with seat := some ⟨name, if version ≤ 7 then version else 7⟩ },
      [Op.wl_registry_bind name wl_seat_interface_name
        (if version ≤ 7 then version else 7)])
  else if interface = zwp_virtual_keyboard_manager_v1_interface_name then
    ({ wpr with manager := some ⟨name, 1⟩ },
      [Op.wl_registry_bind name zwp_virtual_keyboard_manager_v1_interface_name 1])
  else
    (wpr, [])

/-- The listener called once for every announced global, in order. -/
def deliver_globals (wpr : wpadremap) : List Global → wpadremap × List Op
  | [] => (wpr, [])
  | g :: rest =>
    let step := handle_wl_event wpr g.name g.interface g.version
    let tail := deliver_globals step.1 rest
    (tail.1, step.2 ++ tail.2)

/-- The function `init_virtual_keyboard`. -/
def init_virtual_keyboard (env : InitEnv) (wpr : wpadremap) : Run :=
  (Run.ops [Op.zwp_virtual_keyboard_manager_v1_create_virtual_keyboard
              wpr.manager wpr.seat,
            Op.xkb_context_new]).andThen
  (if env.xkb_context_ok = false then fail LogLine.no_xkb_context
   else
    (Run.ops [Op.xkb_keymap_new_from_names]).andThen
    (if env.keymap_ok = false then fail LogLine.no_keymap
     else
      let keymap_string := env.keymap_string
      let keymap_size := strlen keymap_string + 1
      let fd := env.mkstemp_fd
      (Run.ops [Op.xkb_keymap_get_as_string, Op.mkstemp fd]).andThen
      (if fd < 0 then fail LogLine.no_keymap_file
       else
        Run.ops [Op.unlink,
                 Op.fdopen fd,
                 Op.fwrite (keymap_string.take keymap_size),
                 Op.fflush,
                 Op.zwp_virtual_keyboard_v1_keymap
                   WL_KEYBOARD_KEYMAP_FORMAT_XKB_V1 fd keymap_size,
                 Op.wl_display_roundtrip,
                 Op.fclose fd])))

/-- The function `init_wayland`. -/
def init_wayland (env : InitEnv) (wpr : wpadremap) : Run :=
  (Run.ops [Op.wl_display_connect]).andThen
  (if env.connect_ok = false then fail LogLine.no_wayland_connection
   else
    let dispatched := deliver_globals wpr env.globals_on_dispatch
    let discovered := deliver_globals dispatched.1 env.globals_on_roundtrip
    (Run.ops ([Op.wl_display_get_registry,
               Op.wl_registry_add_listener,
               Op.wl_display_dispatch] ++ dispatched.2
              ++ [Op.wl_display_roundtrip] ++ discovered.2)).andThen
    (if discovered.1.manager = none then fail LogLine.no_virtual_keyboard
     else init_virtual_keyboard env discovered.1))

/-- The state after registry discovery in `init_wayland`. -/
def discovered_objects (env : InitEnv) (wpr : wpadremap) : wpadremap :=
  (deliver_globals (deliver_globals wpr env.globals_on_dispatch).1
    env.globals_on_roundtrip).1

/-- The sizes declared by the `keymap` commands of a trace. -/
def declared_keymap_sizes (t : List Op) : List Nat :=
  t.filterMap fun op => match op with
    | Op.zwp_virtual_keyboard_v1_keymap _ _ size => some size
    | _ => none

/-- The byte strings written to the transfer file in a trace. -/
def written_bytes (t : List Op) : List (List Nat) :=
  t.filterMap fun op => match op with
    | Op.fwrite bytes => some bytes
    | _ => none

/-- A compositor that announces the virtual-keyboard manager but no seat;
everything else succeeds, the keymap text is `"ab"`. -/
def seatless_compositor : InitEnv :=
  { connect_ok := true,
    globals_on_dispatch :=
      [⟨1, "wl_compositor", 4⟩, ⟨2, "zwp_virtual_keyboard_manager_v1", 1⟩],
    globals_on_roundtrip := [],
    xkb_context_ok := true,
    keymap_ok := true,
    keymap_string := [97, 98, 0],
    mkstemp_fd := 5 }

/-- A compositor that announces a seat but no virtual-keyboard manager. -/
def managerless_compositor : InitEnv :=
  { connect_ok := true,
    globals_on_dispatch := [⟨1, "wl_compositor", 4⟩],
    globals_on_roundtrip := [⟨2, "wl_seat", 7⟩],
    xkb_context_ok := true,
    keymap_ok := true,
    keymap_string := [97, 98, 0],
    mkstemp_fd := 5 }

/-- A compositor that announces a seat and the virtual-keyboard manager;
everything else succeeds, the keymap text is `"ab"`. -/
def full_compositor : InitEnv :=
  { connect_ok := true,
    globals_on_dispatch :=
      [⟨1, "wl_seat", 9⟩, ⟨2, "zwp_virtual_keyboard_manager_v1", 1⟩],
    globals_on_roundtrip := [],
    xkb_context_ok := true,
    keymap_ok := true,
    keymap_string := [97, 98, 0],
    mkstemp_fd := 5 }

/-! ## Theorems -/

/-! ### Sequencing -/

theorem andThen_ops_nil (r : Run) : (Run.ops []).andThen r = r := by
  cases r
  simp [Run.andThen, Run.ops]

theorem andThen_assoc (a b c : Run) :
    (a.andThen b).andThen c = a.andThen (b.andThen c) := by
  obtain ⟨ta, oa⟩ := a
  obtain ⟨tb, ob⟩ := b
  cases oa <;> cases ob <;> simp [Run.andThen]

theorem andThen_trace_of_returned (a b : Run) (h : a.outcome = Outcome.returned) :
    (a.andThen b).trace = a.trace ++ b.trace ∧ (a.andThen b).outcome = b.outcome := by
  simp [Run.andThen, h]

/-! ### The translator -/

theorem pad_button_to_keycode_unmapped (b : Nat) (h : 9 < b) :
    pad_button_to_keycode b = -1 := by
  have h1 : ¬ (b ≥ 1 ∧ b ≤ 9) := by omega
  have h2 : ¬ b = 0 := by omega
  simp [pad_button_to_keycode, h1, h2]

theorem pad_button_to_keycode_mapped (b : Nat) (h : b ≤ 9) :
    pad_button_to_keycode b = if b = 0 then 11 else (b : Int) + 1 := by
  interval_cases b <;> decide

theorem handle_pad_button_returns (ev : libinput_event) :
    (handle_libinput_tablet_pad_button ev).outcome = Outcome.returned := by
  unfold handle_libinput_tablet_pad_button
  simp only []
  split <;> simp [log_print, Run.ops, Run.andThen]

theorem drain_events_append (es1 es2 : List libinput_event) :
    drain_events (es1 ++ es2) = (drain_events es1).andThen (drain_events es2) := by
  induction es1 with
  | nil => simp [drain_events, andThen_ops_nil]
  | cons ev es ih =>
    have hcons : (ev :: es) ++ es2 = ev :: (es ++ es2) := rfl
    rw [hcons]
    cases hty : ev.type
    · simp [drain_events, hty, fail, Run.andThen]
    · simp only [drain_events, hty, ih]
    · simp only [drain_events, hty, ih]
    · simp only [drain_events, hty, ih, andThen_assoc]
    · simp only [drain_events, hty, ih]

theorem drain_events_returns (es : List libinput_event)
    (h : ∀ e ∈ es, e.type ≠ libinput_event_type.LIBINPUT_EVENT_NONE) :
    (drain_events es).outcome = Outcome.returned := by
  induction es with
  | nil => simp [drain_events, Run.ops]
  | cons ev es ih =>
    have hev := h ev (List.mem_cons_self _ _)
    have hes := ih (fun e he => h e (List.mem_cons_of_mem _ he))
    cases hty : ev.type <;> simp [drain_events, hty, hes] at hev ⊢
    rw [(andThen_trace_of_returned _ _ (handle_pad_button_returns ev)).2]
    exact hes

theorem vk_commands_append (t1 t2 : List Op) :
    vk_commands (t1 ++ t2) = vk_commands t1 ++ vk_commands t2 := by
  simp [vk_commands]

theorem emitted_commands_eq (es : List libinput_event) :
    emitted_commands es = vk_commands (drain_events es).trace := by
  simp [emitted_commands, handle_libinput_events, Run.andThen, Run.ops, vk_commands,
    Op.is_vk_command]

/-! ### Claims about the translator -/

/-- C2: for every unsigned 32-bit button number `b`, `pad_button_to_keycode b`
is `b + 1` when `1 ≤ b ≤ 9`, `11` when `b = 0`, and the negative value `-1`
for every other `b`; the result is negative exactly when `b` is outside
`{0..9}`. -/
theorem pad_button_to_keycode_piecewise (b : Nat) (hb : b < 2 ^ 32) :
    pad_button_to_keycode b =
        (if 1 ≤ b ∧ b ≤ 9 then (b : Int) + 1 else if b = 0 then 11 else -1)
      ∧ (pad_button_to_keycode b < 0 ↔ ¬ b ≤ 9) := by
  by_cases h : b ≤ 9
  · interval_cases b <;> decide
  · have h9 : 9 < b := by omega
    have h1 : ¬ (1 ≤ b ∧ b ≤ 9) := by omega
    have h0 : ¬ b = 0 := by omega
    simp [pad_button_to_keycode_unmapped b h9, h1, h0, h]

/-- Witness for C2 at button 7. -/
theorem pad_button_to_keycode_piecewise_witness :
    pad_button_to_keycode 7 = 8 ∧ (pad_button_to_keycode 7 < 0 ↔ ¬ 7 ≤ 9) := by
  have h := pad_button_to_keycode_piecewise 7 (by norm_num)
  simpa using h

/-- C1: for every mapped pad button `b` (`0 ≤ b ≤ 9`) the handler emits
exactly two virtual-keyboard commands, the modifiers command first: for a
pressed event `modifiers(8,0,0,0)` then `key(0, k, pressed)`, for a released
event `modifiers(0,0,0,0)` then `key(0, k, released)`, where `k` is
`pad_button_to_keycode b`; button 3 gives keycode 4 and button 0 gives 11.
The handler returns in both cases. -/
theorem handle_pad_button_mapped (b : Nat) (hb : b ≤ 9) :
    vk_commands (handle_libinput_tablet_pad_button
        (pad_button_event b libinput_button_state.LIBINPUT_BUTTON_STATE_PRESSED)).trace
      = [Op.zwp_virtual_keyboard_v1_modifiers 8 0 0 0,
         Op.zwp_virtual_keyboard_v1_key 0 (pad_button_to_keycode b)
           wl_keyboard_key_state.WL_KEYBOARD_KEY_STATE_PRESSED]
    ∧ vk_commands (handle_libinput_tablet_pad_button
        (pad_button_event b libinput_button_state.LIBINPUT_BUTTON_STATE_RELEASED)).trace
      = [Op.zwp_virtual_keyboard_v1_modifiers 0 0 0 0,
         Op.zwp_virtual_keyboard_v1_key 0 (pad_button_to_keycode b)
           wl_keyboard_key_state.WL_KEYBOARD_KEY_STATE_RELEASED]
    ∧ (∀ st, (handle_libinput_tablet_pad_button (pad_button_event b st)).outcome
        = Outcome.returned)
    ∧ pad_button_to_keycode 3 = 4 ∧ pad_button_to_keycode 0 = 11 := by
  refine ⟨?_, ?_, fun st => handle_pad_button_returns _, by decide, by decide⟩
  · interval_cases b <;> decide
  · interval_cases b <;> decide

/-- Witness for C1 at button 3: `modifiers(8,0,0,0)` then `key(0, 4, pressed)`
on press, `modifiers(0,0,0,0)` then `key(0, 4, released)` on release. -/
theorem handle_pad_button_mapped_witness :
    vk_commands (handle_libinput_tablet_pad_button
        (pad_button_event 3 libinput_button_state.LIBINPUT_BUTTON_STATE_PRESSED)).trace
      = [Op.zwp_virtual_keyboard_v1_modifiers 8 0 0 0,
         Op.zwp_virtual_keyboard_v1_key 0 4
           wl_keyboard_key_state.WL_KEYBOARD_KEY_STATE_PRESSED]
    ∧ vk_commands (handle_libinput_tablet_pad_button
        (pad_button_event 3 libinput_button_state.LIBINPUT_BUTTON_STATE_RELEASED)).trace
      = [Op.zwp_virtual_keyboard_v1_modifiers 0 0 0 0,
         Op.zwp_virtual_keyboard_v1_key 0 4
           wl_keyboard_key_state.WL_KEYBOARD_KEY_STATE_RELEASED] := by
  have h := handle_pad_button_mapped 3 (by decide)
  exact ⟨h.1, h.2.1⟩

/-- Every pad button event, pressed or released, whose button number is
outside `{0..9}` makes the handler perform exactly one operation, the line
`"Unmapped pad button %d! ..."`; the number the line shows is the button
number read as an `int`, which is the button number itself exactly when it is
below `2 ^ 31`.  The handler emits no virtual-keyboard command and returns
(the process is not terminated). -/
theorem handle_pad_button_unmapped (ev : libinput_event)
    (hb : ev.button_number < 2 ^ 32) (h : ¬ ev.button_number ≤ 9) :
    handle_libinput_tablet_pad_button ev
        = ⟨[Op.log (LogLine.unmapped_pad_button (to_int ev.button_number))],
            Outcome.returned⟩
    ∧ vk_commands (handle_libinput_tablet_pad_button ev).trace = []
    ∧ log_lines (handle_libinput_tablet_pad_button ev).trace
        = [LogLine.unmapped_pad_button (to_int ev.button_number)]
    ∧ (handle_libinput_tablet_pad_button ev).outcome = Outcome.returned
    ∧ (to_int ev.button_number = (ev.button_number : Int) ↔ ev.button_number < 2 ^ 31) := by
  have hk : pad_button_to_keycode ev.button_number = -1 :=
    pad_button_to_keycode_unmapped _ (by omega)
  have hrun : handle_libinput_tablet_pad_button ev
      = ⟨[Op.log (LogLine.unmapped_pad_button (to_int ev.button_number))],
          Outcome.returned⟩ := by
    simp [handle_libinput_tablet_pad_button, hk, log_print, Run.ops, printf_d_of_unsigned]
  rw [hrun]
  refine ⟨rfl, ?_, ?_, rfl, ?_⟩
  · simp [vk_commands, Op.is_vk_command]
  · simp [log_lines]
  · have hmod : ev.button_number % 2 ^ 32 = ev.button_number := Nat.mod_eq_of_lt hb
    unfold to_int
    rw [hmod]
    constructor
    · intro heq
      by_contra hlt
      rw [if_neg hlt] at heq
      omega
    · intro hlt
      rw [if_pos hlt]

/-- Button 15, pressed: the single operation is the line
`"Unmapped pad button 15! ..."`. -/
theorem handle_pad_button_unmapped_witness :
    handle_libinput_tablet_pad_button
        (pad_button_event 15 libinput_button_state.LIBINPUT_BUTTON_STATE_PRESSED)
      = ⟨[Op.log (LogLine.unmapped_pad_button 15)], Outcome.returned⟩ :=
  (handle_pad_button_unmapped
    (pad_button_event 15 libinput_button_state.LIBINPUT_BUTTON_STATE_PRESSED)
    (by decide) (by decide)).1

/-- C8: a drained event whose type is neither tablet-pad-button nor
`LIBINPUT_EVENT_NONE` (device added, device removed, any other type) is
skipped: the loop performs no operation for it and goes on with the next
event, so handling the queue with it equals handling the queue without it;
alone it yields no virtual-keyboard command and `handle_libinput_events`
returns. -/
theorem ignored_event_skipped (ev : libinput_event) (queue : List libinput_event)
    (hpad : ev.type ≠ libinput_event_type.LIBINPUT_EVENT_TABLET_PAD_BUTTON)
    (hnone : ev.type ≠ libinput_event_type.LIBINPUT_EVENT_NONE) :
    handle_libinput_events (ev :: queue) = handle_libinput_events queue
    ∧ emitted_commands [ev] = []
    ∧ (handle_libinput_events [ev]).outcome = Outcome.returned := by
  have hskip : ∀ q, drain_events (ev :: q) = drain_events q := by
    intro q
    cases hty : ev.type <;> simp_all [drain_events]
  refine ⟨?_, ?_, ?_⟩
  · unfold handle_libinput_events
    rw [hskip]
  · rw [emitted_commands_eq, hskip]
    simp [drain_events, Run.ops, vk_commands]
  · unfold handle_libinput_events
    rw [hskip]
    simp [drain_events, Run.ops, Run.andThen]

/-- Witness for C8 at a device-added notification followed by a press of
button 3. -/
theorem ignored_event_skipped_witness :
    handle_libinput_events
        [⟨libinput_event_type.LIBINPUT_EVENT_DEVICE_ADDED, 0,
            libinput_button_state.LIBINPUT_BUTTON_STATE_RELEASED⟩,
         pad_button_event 3 libinput_button_state.LIBINPUT_BUTTON_STATE_PRESSED]
      = handle_libinput_events
        [pad_button_event 3 libinput_button_state.LIBINPUT_BUTTON_STATE_PRESSED]
    ∧ emitted_commands
        [⟨libinput_event_type.LIBINPUT_EVENT_DEVICE_ADDED, 0,
            libinput_button_state.LIBINPUT_BUTTON_STATE_RELEASED⟩] = [] := by
  have h := ignored_event_skipped
    ⟨libinput_event_type.LIBINPUT_EVENT_DEVICE_ADDED, 0,
      libinput_button_state.LIBINPUT_BUTTON_STATE_RELEASED⟩
    [pad_button_event 3 libinput_button_state.LIBINPUT_BUTTON_STATE_PRESSED]
    (by decide) (by decide)
  exact ⟨h.1, h.2.1⟩

theorem emitted_commands_append_of_returning (es1 es2 : List libinput_event)
    (h : ∀ e ∈ es1, e.type ≠ libinput_event_type.LIBINPUT_EVENT_NONE) :
    emitted_commands (es1 ++ es2) = emitted_commands es1 ++ emitted_commands es2 := by
  rw [emitted_commands_eq, emitted_commands_eq, emitted_commands_eq,
    drain_events_append,
    (andThen_trace_of_returned _ _ (drain_events_returns es1 h)).1,
    vk_commands_append]

theorem emitted_commands_flatten (es : List libinput_event)
    (h : ∀ e ∈ es, e.type ≠ libinput_event_type.LIBINPUT_EVENT_NONE) :
    emitted_commands es = (es.map fun e => emitted_commands [e]).flatten := by
  induction es with
  | nil => simp [emitted_commands_eq, drain_events, Run.ops, vk_commands]
  | cons ev es ih =>
    have hev : ∀ e ∈ [ev], e.type ≠ libinput_event_type.LIBINPUT_EVENT_NONE := by
      intro e he
      rw [List.mem_singleton] at he
      subst he
      exact h e (List.mem_cons_self _ _)
    have hsplit := emitted_commands_append_of_returning [ev] es hev
    rw [List.singleton_append] at hsplit
    rw [hsplit, ih (fun e he => h e (List.mem_cons_of_mem _ he))]
    simp

theorem emitted_commands_single (e : libinput_event) :
    emitted_commands [e]
      = if e.type = libinput_event_type.LIBINPUT_EVENT_TABLET_PAD_BUTTON then
          vk_commands (handle_libinput_tablet_pad_button e).trace
        else [] := by
  rw [emitted_commands_eq]
  cases hty : e.type
  · simp [drain_events, hty, fail, vk_commands, Op.is_vk_command]
  · simp [drain_events, hty, Run.ops, vk_commands]
  · simp [drain_events, hty, Run.ops, vk_commands]
  · simp [drain_events, hty, Run.ops,
      (andThen_trace_of_returned _ _ (handle_pad_button_returns e)).1]
  · simp [drain_events, hty, Run.ops, vk_commands]

/-- C4: for all finite sequences `es1`, `es2` of drained input events (events
returned by `libinput_get_event`, none of which has the type
`LIBINPUT_EVENT_NONE`), the commands `handle_libinput_events` emits for
`es1 ++ es2` are the commands for `es1` followed by the commands for `es2`;
the commands for a sequence are the in-order concatenation of the commands
each of its events emits when handled alone; and what an event emits alone is
what `handle_libinput_tablet_pad_button` emits for it when it is a pad button
event, nothing otherwise.  So the (modifiers, key) pairs appear in input
order, no command of another pair falls inside a pair, and the commands for
an event do not depend on any earlier event. -/
theorem emitted_commands_append (es1 es2 : List libinput_event)
    (h1 : ∀ e ∈ es1, e.type ≠ libinput_event_type.LIBINPUT_EVENT_NONE)
    (h2 : ∀ e ∈ es2, e.type ≠ libinput_event_type.LIBINPUT_EVENT_NONE) :
    emitted_commands (es1 ++ es2) = emitted_commands es1 ++ emitted_commands es2
    ∧ emitted_commands (es1 ++ es2)
        = ((es1 ++ es2).map fun e => emitted_commands [e]).flatten
    ∧ (∀ e, emitted_commands [e]
        = if e.type = libinput_event_type.LIBINPUT_EVENT_TABLET_PAD_BUTTON then
            vk_commands (handle_libinput_tablet_pad_button e).trace
          else []) := by
  refine ⟨emitted_commands_append_of_returning es1 es2 h1, ?_, emitted_commands_single⟩
  apply emitted_commands_flatten
  intro e he
  rw [List.mem_append] at he
  rcases he with he | he
  · exact h1 e he
  · exact h2 e he

/-- Witness for C4: a device-added notification and a press of button 3,
followed by a second press of button 3 and its release; the repeated press
sends the same pair again. -/
theorem emitted_commands_append_witness :
    emitted_commands
        ([⟨libinput_event_type.LIBINPUT_EVENT_DEVICE_ADDED, 0,
            libinput_button_state.LIBINPUT_BUTTON_STATE_RELEASED⟩,
          pad_button_event 3 libinput_button_state.LIBINPUT_BUTTON_STATE_PRESSED]
          ++ [pad_button_event 3 libinput_button_state.LIBINPUT_BUTTON_STATE_PRESSED,
              pad_button_event 3 libinput_button_state.LIBINPUT_BUTTON_STATE_RELEASED])
      = [Op.zwp_virtual_keyboard_v1_modifiers 8 0 0 0,
         Op.zwp_virtual_keyboard_v1_key 0 4
           wl_keyboard_key_state.WL_KEYBOARD_KEY_STATE_PRESSED,
         Op.zwp_virtual_keyboard_v1_modifiers 8 0 0 0,
         Op.zwp_virtual_keyboard_v1_key 0 4
           wl_keyboard_key_state.WL_KEYBOARD_KEY_STATE_PRESSED,
         Op.zwp_virtual_keyboard_v1_modifiers 0 0 0 0,
         Op.zwp_virtual_keyboard_v1_key 0 4
           wl_keyboard_key_state.WL_KEYBOARD_KEY_STATE_RELEASED] := by
  have h := (emitted_commands_append
    [⟨libinput_event_type.LIBINPUT_EVENT_DEVICE_ADDED, 0,
        libinput_button_state.LIBINPUT_BUTTON_STATE_RELEASED⟩,
      pad_button_event 3 libinput_button_state.LIBINPUT_BUTTON_STATE_PRESSED]
    [pad_button_event 3 libinput_button_state.LIBINPUT_BUTTON_STATE_PRESSED,
     pad_button_event 3 libinput_button_state.LIBINPUT_BUTTON_STATE_RELEASED]
    (by decide) (by decide)).1
  rw [h]
  decide

/-! ### The reactor -/

theorem andThen_ops (l : List Op) (r : Run) :
    (Run.ops l).andThen r = ⟨l ++ r.trace, r.outcome⟩ := by
  simp [Run.andThen, Run.ops]

theorem andThen_trace (a b : Run) :
    (a.andThen b).trace
      = a.trace ++ (if a.outcome = Outcome.returned then b.trace else []) := by
  obtain ⟨ta, oa⟩ := a
  cases oa <;> simp [Run.andThen]

theorem andThen_outcome (a b : Run) :
    (a.andThen b).outcome
      = if a.outcome = Outcome.returned then b.outcome else a.outcome := by
  obtain ⟨ta, oa⟩ := a
  cases oa <;> simp [Run.andThen]

theorem handle_pad_button_no_wait_step (ev : libinput_event) :
    ∀ op ∈ (handle_libinput_tablet_pad_button ev).trace, op.is_wait_step = false := by
  unfold handle_libinput_tablet_pad_button
  simp only []
  split <;> simp [log_print, Run.ops, Run.andThen, Op.is_wait_step]

theorem drain_events_no_wait_step (q : List libinput_event) :
    ∀ op ∈ (drain_events q).trace, op.is_wait_step = false := by
  induction q with
  | nil => simp [drain_events, Run.ops]
  | cons ev q ih =>
    cases hty : ev.type
    · simp [drain_events, hty, fail, Op.is_wait_step]
    · simpa only [drain_events, hty] using ih
    · simpa only [drain_events, hty] using ih
    · simp only [drain_events, hty, andThen_trace]
      intro op hop
      rw [List.mem_append] at hop
      rcases hop with hop | hop
      · exact handle_pad_button_no_wait_step ev op hop
      · split at hop
        · exact ih op hop
        · simp at hop
    · simpa only [drain_events, hty] using ih

theorem handle_events_no_wait_step (q : List libinput_event) :
    ∀ op ∈ (handle_libinput_events q).trace, op.is_wait_step = false := by
  intro op hop
  simp only [handle_libinput_events, andThen_ops, List.singleton_append,
    List.mem_cons] at hop
  rcases hop with hop | hop
  · subst hop
    rfl
  · exact drain_events_no_wait_step q op hop

theorem handle_events_returns (q : List libinput_event)
    (h : ∀ e ∈ q, e.type ≠ libinput_event_type.LIBINPUT_EVENT_NONE) :
    (handle_libinput_events q).outcome = Outcome.returned := by
  simp [handle_libinput_events, andThen_ops, drain_events_returns q h]

theorem pollGuarded_nil : PollGuarded [] := by
  simp [PollGuarded]

theorem pollGuarded_cons (x : Op) (l : List Op) (hx : x.is_wait_step = false)
    (h : PollGuarded l) : PollGuarded (x :: l) := by
  obtain ⟨h0, hpoll, hfail⟩ := h
  refine ⟨?_, ?_, ?_⟩
  · intro hc
    simp only [List.getElem?_cons_zero, Option.some.injEq] at hc
    subst hc
    simp [Op.is_wait_step] at hx
  · intro i hi
    cases i with
    | zero =>
      simp only [zero_add, List.getElem?_cons_succ] at hi
      exact absurd hi h0
    | succ j =>
      simp only [List.getElem?_cons_succ] at hi ⊢
      exact hpoll j hi
  · intro i r hr hi
    cases i with
    | zero =>
      simp only [List.getElem?_cons_zero, Option.some.injEq] at hi
      subst hi
      simp [Op.is_wait_step] at hx
    | succ j =>
      simp only [List.getElem?_cons_succ] at hi ⊢
      exact hfail j r hr hi

theorem pollGuarded_append (pre l : List Op)
    (hpre : ∀ op ∈ pre, op.is_wait_step = false) (h : PollGuarded l) :
    PollGuarded (pre ++ l) := by
  induction pre with
  | nil => simpa using h
  | cons x pre ih =>
    rw [List.cons_append]
    exact pollGuarded_cons x _ (hpre x (List.mem_cons_self _ _))
      (ih (fun op hop => hpre op (List.mem_cons_of_mem _ hop)))

theorem pollGuarded_success (l : List Op) (h : PollGuarded l) :
    PollGuarded (Op.wl_display_prepare_read 0 :: Op.poll :: l) := by
  obtain ⟨h0, hpoll, hfail⟩ := h
  refine ⟨by simp, ?_, ?_⟩
  · intro i hi
    match i with
    | 0 => simp
    | 1 =>
      simp only [List.getElem?_cons_succ] at hi
      exact absurd hi h0
    | j + 2 =>
      simp only [List.getElem?_cons_succ] at hi ⊢
      exact hpoll j hi
  · intro i r hr hi
    match i with
    | 0 =>
      simp only [List.getElem?_cons_zero, Option.some.injEq, Op.wl_display_prepare_read.injEq]
        at hi
      exact absurd hi.symm hr
    | 1 => simp at hi
    | j + 2 =>
      simp only [List.getElem?_cons_succ] at hi ⊢
      exact hfail j r hr hi

theorem pollGuarded_failure (r f : Int) (l : List Op) (h : PollGuarded l)
    (hhead : ∀ op, l[0]? = some op → ∃ r2, op = Op.wl_display_prepare_read r2) :
    PollGuarded (Op.wl_display_prepare_read r :: Op.wl_display_dispatch_pending
      :: Op.wl_display_flush f :: l) := by
  obtain ⟨h0, hpoll, hfail⟩ := h
  refine ⟨by simp, ?_, ?_⟩
  · intro i hi
    match i with
    | 0 => simp at hi
    | 1 => simp at hi
    | 2 =>
      simp only [List.getElem?_cons_succ] at hi
      exact absurd hi h0
    | j + 3 =>
      simp only [List.getElem?_cons_succ] at hi ⊢
      exact hpoll j hi
  · intro i r1 hr1 hi
    match i with
    | 0 =>
      refine ⟨by simp, ⟨f, by simp⟩, ?_⟩
      intro op hop
      simp only [zero_add, List.getElem?_cons_succ] at hop
      exact hhead op hop
    | 1 => simp at hi
    | 2 => simp at hi
    | j + 3 =>
      simp only [List.getElem?_cons_succ] at hi ⊢
      exact hfail j r1 hr1 hi

theorem event_loop_cycles_succ_trace (fuel : Nat) (env : LoopEnv) (c : Calls) :
    (event_loop_cycles (fuel + 1) env c).trace =
      if env.prepare_read c.prepare_read ≠ 0 then
        Op.wl_display_prepare_read (env.prepare_read c.prepare_read)
          :: Op.wl_display_dispatch_pending
          :: Op.wl_display_flush (env.flush c.flush)
          :: (event_loop_cycles fuel env
                { c with prepare_read := c.prepare_read + 1, flush := c.flush + 1 }).trace
      else
        Op.wl_display_prepare_read 0 :: Op.poll ::
          ((handle_libinput_events (env.events c.handle_events)).trace ++
            (if (handle_libinput_events (env.events c.handle_events)).outcome
                = Outcome.returned then
              Op.wl_display_flush (env.flush c.flush)
                :: Op.wl_display_read_events (env.read_events c.read_events)
                :: Op.wl_display_dispatch_pending
                :: (event_loop_cycles fuel env
                      { prepare_read := c.prepare_read + 1,
                        flush := c.flush + 1,
                        read_events := c.read_events + 1,
                        handle_events := c.handle_events + 1 }).trace
             else [])) := by
  by_cases hr : env.prepare_read c.prepare_read = 0
  · simp only [event_loop_cycles, hr, ne_eq, not_true_eq_false, if_false, andThen_ops,
      andThen_trace, andThen_outcome]
    simp
  · simp only [event_loop_cycles, hr, ne_eq, not_false_eq_true, if_true, andThen_ops]
    simp

theorem event_loop_cycles_head (fuel : Nat) (env : LoopEnv) (c : Calls) :
    ∀ op, (event_loop_cycles fuel env c).trace[0]? = some op →
      ∃ r2, op = Op.wl_display_prepare_read r2 := by
  intro op hop
  cases fuel with
  | zero => simp [event_loop_cycles] at hop
  | succ n =>
    rw [event_loop_cycles_succ_trace] at hop
    split at hop
    · simp only [List.getElem?_cons_zero, Option.some.injEq] at hop
      exact ⟨_, hop.symm⟩
    · simp only [List.getElem?_cons_zero, Option.some.injEq] at hop
      exact ⟨_, hop.symm⟩

theorem event_loop_cycles_pollGuarded (fuel : Nat) (env : LoopEnv) :
    ∀ c, PollGuarded (event_loop_cycles fuel env c).trace := by
  induction fuel with
  | zero =>
    intro c
    simpa [event_loop_cycles] using pollGuarded_nil
  | succ n ih =>
    intro c
    rw [event_loop_cycles_succ_trace]
    split
    · exact pollGuarded_failure _ _ _ (ih _) (event_loop_cycles_head n env _)
    · apply pollGuarded_success
      apply pollGuarded_append _ _ (handle_events_no_wait_step _)
      split
      · exact pollGuarded_cons _ _ rfl (pollGuarded_cons _ _ rfl
          (pollGuarded_cons _ _ rfl (ih _)))
      · exact pollGuarded_nil

theorem event_loop_trace (fuel : Nat) (env : LoopEnv) :
    (event_loop fuel env).trace
      = Op.log LogLine.entering_event_loop
          :: (event_loop_cycles fuel env ⟨0, 0, 0, 0⟩).trace := by
  simp [event_loop, andThen_ops]

theorem event_loop_cycles_succ_outcome (fuel : Nat) (env : LoopEnv) (c : Calls) :
    (event_loop_cycles (fuel + 1) env c).outcome =
      if env.prepare_read c.prepare_read ≠ 0 then
        (event_loop_cycles fuel env
          { c with prepare_read := c.prepare_read + 1, flush := c.flush + 1 }).outcome
      else if (handle_libinput_events (env.events c.handle_events)).outcome
          = Outcome.returned then
        (event_loop_cycles fuel env
          { prepare_read := c.prepare_read + 1,
            flush := c.flush + 1,
            read_events := c.read_events + 1,
            handle_events := c.handle_events + 1 }).outcome
      else (handle_libinput_events (env.events c.handle_events)).outcome := by
  by_cases hr : env.prepare_read c.prepare_read = 0
  · simp only [event_loop_cycles, hr, ne_eq, not_true_eq_false, if_false, andThen_ops,
      andThen_outcome]
  · simp only [event_loop_cycles, hr, ne_eq, not_false_eq_true, if_true, andThen_ops]

theorem handle_events_no_prepare_read (q : List libinput_event) :
    (handle_libinput_events q).trace.filter Op.is_prepare_read = [] := by
  rw [List.filter_eq_nil_iff]
  intro op hop
  have h := handle_events_no_wait_step q op hop
  cases op <;> simp_all [Op.is_wait_step, Op.is_prepare_read]

theorem event_loop_cycles_keeps_running (fuel : Nat) (env : LoopEnv)
    (h : ∀ k, ∀ e ∈ env.events k, e.type ≠ libinput_event_type.LIBINPUT_EVENT_NONE) :
    ∀ c, (event_loop_cycles fuel env c).outcome = Outcome.running
      ∧ ((event_loop_cycles fuel env c).trace.filter Op.is_prepare_read).length = fuel := by
  induction fuel with
  | zero =>
    intro c
    simp [event_loop_cycles]
  | succ n ih =>
    intro c
    have hret := handle_events_returns (env.events c.handle_events) (h c.handle_events)
    rw [event_loop_cycles_succ_outcome, event_loop_cycles_succ_trace]
    by_cases hr : env.prepare_read c.prepare_read = 0
    · simp only [hr, ne_eq, not_true_eq_false, if_false, hret, if_true]
      refine ⟨(ih _).1, ?_⟩
      simp [List.filter_cons, Op.is_prepare_read, handle_events_no_prepare_read, (ih _).2]
    · simp only [hr, ne_eq, not_false_eq_true, if_true]
      refine ⟨(ih _).1, ?_⟩
      simp [List.filter_cons, Op.is_prepare_read, (ih _).2]

/-! ### Claims about the reactor -/

/-- C9: in every run of `event_loop`, observed for any number of steps, the
trace does not begin with `poll`, every `poll` comes directly after a
`wl_display_prepare_read` that returned `0`, and every
`wl_display_prepare_read` that failed is directly followed by
`wl_display_dispatch_pending`, then `wl_display_flush`, and only then (when
the run goes on) by the next `wl_display_prepare_read`.  So `poll` never
occurs while the most recent `wl_display_prepare_read` result is a failure. -/
theorem event_loop_poll_only_after_prepare_read (fuel : Nat) (env : LoopEnv) :
    (event_loop fuel env).trace[0]? ≠ some Op.poll
    ∧ (∀ i, (event_loop fuel env).trace[i + 1]? = some Op.poll →
        (event_loop fuel env).trace[i]? = some (Op.wl_display_prepare_read 0))
    ∧ (∀ i r, r ≠ 0 →
        (event_loop fuel env).trace[i]? = some (Op.wl_display_prepare_read r) →
        (event_loop fuel env).trace[i + 1]? = some Op.wl_display_dispatch_pending
        ∧ (∃ f, (event_loop fuel env).trace[i + 2]? = some (Op.wl_display_flush f))
        ∧ (∀ op, (event_loop fuel env).trace[i + 3]? = some op →
            ∃ r2, op = Op.wl_display_prepare_read r2)) := by
  rw [event_loop_trace]
  exact pollGuarded_cons _ _ rfl (event_loop_cycles_pollGuarded fuel env _)

/-- Witness for C9: `wl_display_prepare_read` fails once (`-1`) and then
succeeds; the failed call at position 1 is followed by dispatch-pending,
flush and the next `wl_display_prepare_read`, and the `poll` at position 5
directly follows the successful call. -/
theorem event_loop_poll_only_after_prepare_read_witness :
    (event_loop 2
        { prepare_read := fun k => if k = 0 then -1 else 0,
          flush := fun _ => 0,
          read_events := fun _ => 0,
          events := fun _ => [] }).trace
      = [Op.log LogLine.entering_event_loop,
         Op.wl_display_prepare_read (-1),
         Op.wl_display_dispatch_pending,
         Op.wl_display_flush 0,
         Op.wl_display_prepare_read 0,
         Op.poll,
         Op.libinput_dispatch,
         Op.wl_display_flush 0,
         Op.wl_display_read_events 0,
         Op.wl_display_dispatch_pending]
    ∧ (event_loop 2
        { prepare_read := fun k => if k = 0 then -1 else 0,
          flush := fun _ => 0,
          read_events := fun _ => 0,
          events := fun _ => [] }).trace[4]? = some (Op.wl_display_prepare_read 0) :=
  ⟨by decide,
   (event_loop_poll_only_after_prepare_read 2
      { prepare_read := fun k => if k = 0 then -1 else 0,
        flush := fun _ => 0,
        read_events := fun _ => 0,
        events := fun _ => [] }).2.1 4 (by decide)⟩

/-- C5 as stated fails: with a connection whose every flush and every read
reports failure, `event_loop` goes through the first cycle, enters the second
cycle and is still running; it never exits. -/
theorem event_loop_failure_not_fatal :
    event_loop 2 failing_connection
      = ⟨[Op.log LogLine.entering_event_loop,
          Op.wl_display_prepare_read 0,
          Op.poll,
          Op.libinput_dispatch,
          Op.wl_display_flush (-1),
          Op.wl_display_read_events (-1),
          Op.wl_display_dispatch_pending,
          Op.wl_display_prepare_read 0,
          Op.poll,
          Op.libinput_dispatch,
          Op.wl_display_flush (-1),
          Op.wl_display_read_events (-1),
          Op.wl_display_dispatch_pending], Outcome.running⟩
    ∧ (event_loop 2 failing_connection).outcome ≠ Outcome.exited EXIT_FAILURE := by
  decide

/-- C5, amended: in every reactor cycle of `event_loop` the results of
`wl_display_flush` and `wl_display_read_events` are discarded.  Whatever
they report, as long as no drained event has type `LIBINPUT_EVENT_NONE` the
process does not terminate: after any number of steps the run is still
running and every step began with a call of `wl_display_prepare_read`. -/
theorem event_loop_ignores_connection_results (fuel : Nat) (env : LoopEnv)
    (h : ∀ k, ∀ e ∈ env.events k, e.type ≠ libinput_event_type.LIBINPUT_EVENT_NONE) :
    (event_loop fuel env).outcome = Outcome.running
    ∧ ((event_loop fuel env).trace.filter Op.is_prepare_read).length = fuel := by
  have hc := event_loop_cycles_keeps_running fuel env h ⟨0, 0, 0, 0⟩
  refine ⟨?_, ?_⟩
  · simp [event_loop, andThen_ops, hc.1]
  · rw [event_loop_trace]
    simp [List.filter_cons, Op.is_prepare_read, hc.2]

/-- Witness for the amended C5: three steps against the connection whose
every flush and read fails. -/
theorem event_loop_ignores_connection_results_witness :
    (event_loop 3 failing_connection).outcome = Outcome.running
    ∧ ((event_loop 3 failing_connection).trace.filter Op.is_prepare_read).length = 3 :=
  event_loop_ignores_connection_results 3 failing_connection (by
    intro k e he
    simp [failing_connection] at he)

/-! ### Start-up -/

theorem strlen_append_zero (s junk : List Nat) (hs : ∀ c ∈ s, c ≠ 0) :
    strlen (s ++ 0 :: junk) = s.length := by
  induction s with
  | nil => simp [strlen]
  | cons c s ih =>
    have hc : c ≠ 0 := hs c (List.mem_cons_self _ _)
    have hrest := ih (fun d hd => hs d (List.mem_cons_of_mem _ hd))
    simp [strlen, hc, hrest]

theorem take_string_and_terminator (s junk : List Nat) :
    (s ++ 0 :: junk).take (s.length + 1) = s ++ [0] := by
  induction s with
  | nil => simp
  | cons c s ih => simpa using ih

theorem init_virtual_keyboard_success (env : InitEnv) (wpr : wpadremap)
    (hx : env.xkb_context_ok = true) (hk : env.keymap_ok = true)
    (hfd : 0 ≤ env.mkstemp_fd) :
    init_virtual_keyboard env wpr
      = ⟨[Op.zwp_virtual_keyboard_manager_v1_create_virtual_keyboard wpr.manager wpr.seat,
          Op.xkb_context_new,
          Op.xkb_keymap_new_from_names,
          Op.xkb_keymap_get_as_string,
          Op.mkstemp env.mkstemp_fd,
          Op.unlink,
          Op.fdopen env.mkstemp_fd,
          Op.fwrite (env.keymap_string.take (strlen env.keymap_string + 1)),
          Op.fflush,
          Op.zwp_virtual_keyboard_v1_keymap WL_KEYBOARD_KEYMAP_FORMAT_XKB_V1
            env.mkstemp_fd (strlen env.keymap_string + 1),
          Op.wl_display_roundtrip,
          Op.fclose env.mkstemp_fd], Outcome.returned⟩ := by
  have hneg : ¬ env.mkstemp_fd < 0 := not_lt.mpr hfd
  simp [init_virtual_keyboard, hx, hk, hneg, Run.andThen, Run.ops]

/-! ### Claims about start-up -/

/-- C6, evaluated where it fails: the compositor announces the
virtual-keyboard manager but no seat.  `init_wayland` does not exit; it
creates the virtual keyboard with a `NULL` seat, sends the keymap and
returns. -/
theorem init_wayland_without_seat :
    init_wayland seatless_compositor wpadremap.zeroed
      = ⟨[Op.wl_display_connect,
          Op.wl_display_get_registry,
          Op.wl_registry_add_listener,
          Op.wl_display_dispatch,
          Op.wl_registry_bind 2 "zwp_virtual_keyboard_manager_v1" 1,
          Op.wl_display_roundtrip,
          Op.zwp_virtual_keyboard_manager_v1_create_virtual_keyboard
            (some ⟨2, 1⟩) none,
          Op.xkb_context_new,
          Op.xkb_keymap_new_from_names,
          Op.xkb_keymap_get_as_string,
          Op.mkstemp 5,
          Op.unlink,
          Op.fdopen 5,
          Op.fwrite [97, 98, 0],
          Op.fflush,
          Op.zwp_virtual_keyboard_v1_keymap 1 5 3,
          Op.wl_display_roundtrip,
          Op.fclose 5], Outcome.returned⟩
    ∧ (discovered_objects seatless_compositor wpadremap.zeroed).seat = none := by
  decide

/-- The part of C6 the code does implement: when the virtual-keyboard manager
has not been bound after registry discovery, `init_wayland` exits with
`EXIT_FAILURE`, and its trace holds neither the creation of the virtual
keyboard nor a keymap command. -/
theorem init_wayland_requires_manager (env : InitEnv) (wpr : wpadremap)
    (hm : (discovered_objects env wpr).manager = none) :
    (init_wayland env wpr).outcome = Outcome.exited EXIT_FAILURE
    ∧ (∀ m seat, Op.zwp_virtual_keyboard_manager_v1_create_virtual_keyboard m seat
        ∉ (init_wayland env wpr).trace)
    ∧ declared_keymap_sizes (init_wayland env wpr).trace = [] := by
  have hbind : ∀ (l : List Global) (w : wpadremap),
      (∀ m seat, Op.zwp_virtual_keyboard_manager_v1_create_virtual_keyboard m seat
        ∉ (deliver_globals w l).2)
      ∧ declared_keymap_sizes (deliver_globals w l).2 = [] := by
    intro l
    induction l with
    | nil =>
      intro w
      simp [deliver_globals, declared_keymap_sizes]
    | cons g l ih =>
      intro w
      have h1 := (ih (handle_wl_event w g.name g.interface g.version).1).1
      have h2 := (ih (handle_wl_event w g.name g.interface g.version).1).2
      unfold declared_keymap_sizes at h2 ⊢
      simp only [deliver_globals, List.mem_append, List.filterMap_append, h2,
        List.append_nil]
      unfold handle_wl_event
      refine ⟨?_, ?_⟩
      · intro m seat hmem
        rcases hmem with hmem | hmem
        · split at hmem
          · simp at hmem
          · split at hmem <;> simp at hmem
        · exact h1 m seat hmem
      · split
        · simp
        · split <;> simp
  unfold discovered_objects at hm
  by_cases hc : env.connect_ok = true
  · have hd := hbind env.globals_on_dispatch wpr
    have hr := hbind env.globals_on_roundtrip
      (deliver_globals wpr env.globals_on_dispatch).1
    have hd2 := hd.2
    have hr2 := hr.2
    unfold declared_keymap_sizes at hd2 hr2 ⊢
    simp only [init_wayland, hc, hm, andThen_ops, fail, if_true, Bool.true_eq_false,
      if_false, Run.ops, Run.andThen]
    refine ⟨trivial, ?_, ?_⟩
    · intro m seat hmem
      have hd1 := hd.1 m seat
      have hr1 := hr.1 m seat
      simp [hd1, hr1] at hmem
    · simp [List.filterMap_append, hd2, hr2]
  · have hc2 : env.connect_ok = false := by simpa using hc
    simp [init_wayland, hc2, andThen_ops, fail, Run.ops, Run.andThen,
      declared_keymap_sizes]

/-- A compositor that announces a seat but no virtual-keyboard manager:
`init_wayland` exits with `EXIT_FAILURE`. -/
theorem init_wayland_requires_manager_witness :
    (init_wayland managerless_compositor wpadremap.zeroed).outcome
      = Outcome.exited EXIT_FAILURE :=
  (init_wayland_requires_manager managerless_compositor wpadremap.zeroed (by decide)).1

/-- C7: for every keymap text `s` (a string: no zero byte inside, a zero
byte after it), when `init_virtual_keyboard` gets as far as the transfer
file, it sends exactly one keymap command and writes exactly once; the size
it declares is `length s + 1`, and the bytes it writes are `s` followed by
exactly one zero byte, `length s + 1` bytes in all. -/
theorem keymap_size_matches_written_bytes (env : InitEnv) (wpr : wpadremap)
    (s junk : List Nat) (hs : ∀ c ∈ s, c ≠ 0) (hmem : env.keymap_string = s ++ 0 :: junk)
    (hx : env.xkb_context_ok = true) (hk : env.keymap_ok = true)
    (hfd : 0 ≤ env.mkstemp_fd) :
    declared_keymap_sizes (init_virtual_keyboard env wpr).trace = [s.length + 1]
    ∧ written_bytes (init_virtual_keyboard env wpr).trace = [s ++ [0]]
    ∧ (s ++ [0]).length = s.length + 1 := by
  rw [init_virtual_keyboard_success env wpr hx hk hfd, hmem, strlen_append_zero s junk hs,
    take_string_and_terminator]
  simp [declared_keymap_sizes, written_bytes]

/-- Witness for C7: the keymap text `"ab"`, followed in memory by its
terminator and two further bytes. -/
theorem keymap_size_matches_written_bytes_witness :
    declared_keymap_sizes
        (init_virtual_keyboard { full_compositor with keymap_string := [97, 98, 0, 7, 7] }
          ⟨some ⟨1, 7⟩, some ⟨2, 1⟩⟩).trace = [3]
    ∧ written_bytes
        (init_virtual_keyboard { full_compositor with keymap_string := [97, 98, 0, 7, 7] }
          ⟨some ⟨1, 7⟩, some ⟨2, 1⟩⟩).trace = [[97, 98, 0]] := by
  have h := keymap_size_matches_written_bytes
    { full_compositor with keymap_string := [97, 98, 0, 7, 7] }
    ⟨some ⟨1, 7⟩, some ⟨2, 1⟩⟩ [97, 98] [7, 7] (by decide) rfl rfl rfl (by decide)
  exact ⟨h.1, h.2.1⟩

/-- C10: in the trace of `init_virtual_keyboard`, whenever the transfer file
is created successfully (`mkstemp` returns a descriptor `fd ≥ 0`), the rest
of the trace from that point is exactly: `mkstemp`, `unlink`, `fdopen`,
`fwrite`, `fflush`, the keymap command carrying `fd`, `wl_display_roundtrip`,
`fclose`.  So the name is unlinked as the very next operation, before the
write and the keymap command, and the file is closed only after the
round trip, which comes after the keymap command. -/
theorem keymap_file_lifecycle (env : InitEnv) (wpr : wpadremap) (fd : Int)
    (hfd : 0 ≤ fd) (hcreated : Op.mkstemp fd ∈ (init_virtual_keyboard env wpr).trace) :
    ∃ before bytes size,
      (init_virtual_keyboard env wpr).trace
        = before ++ [Op.mkstemp fd,
                     Op.unlink,
                     Op.fdopen fd,
                     Op.fwrite bytes,
                     Op.fflush,
                     Op.zwp_virtual_keyboard_v1_keymap WL_KEYBOARD_KEYMAP_FORMAT_XKB_V1
                       fd size,
                     Op.wl_display_roundtrip,
                     Op.fclose fd]
      ∧ (∀ op ∈ before, op ≠ Op.mkstemp fd ∧ op ≠ Op.unlink ∧ op ≠ Op.fclose fd
          ∧ op ≠ Op.wl_display_roundtrip) := by
  by_cases hx : env.xkb_context_ok = true
  · by_cases hk : env.keymap_ok = true
    · by_cases hneg : env.mkstemp_fd < 0
      · exfalso
        simp [init_virtual_keyboard, hx, hk, hneg, andThen_ops, fail, Run.ops,
          Run.andThen] at hcreated
        omega
      · have hok : 0 ≤ env.mkstemp_fd := not_lt.mp hneg
        rw [init_virtual_keyboard_success env wpr hx hk hok] at hcreated ⊢
        have hfdeq : fd = env.mkstemp_fd := by simpa using hcreated
        subst hfdeq
        refine ⟨[Op.zwp_virtual_keyboard_manager_v1_create_virtual_keyboard
                  wpr.manager wpr.seat,
                 Op.xkb_context_new,
                 Op.xkb_keymap_new_from_names,
                 Op.xkb_keymap_get_as_string], _, _, rfl, ?_⟩
        intro op hop
        simp only [List.mem_cons, List.mem_singleton, List.not_mem_nil, or_false] at hop
        rcases hop with hop | hop | hop | hop <;> subst hop <;> simp
    · exfalso
      have hk2 : env.keymap_ok = false := by simpa using hk
      simp [init_virtual_keyboard, hx, hk2, andThen_ops, fail, Run.ops,
        Run.andThen] at hcreated
  · exfalso
    have hx2 : env.xkb_context_ok = false := by simpa using hx
    simp [init_virtual_keyboard, hx2, andThen_ops, fail, Run.ops, Run.andThen] at hcreated

/-- Witness for C10: start-up against a compositor where everything
succeeds; the transfer file is descriptor 5. -/
theorem keymap_file_lifecycle_witness :
    ∃ before bytes size,
      (init_virtual_keyboard full_compositor ⟨some ⟨1, 7⟩, some ⟨2, 1⟩⟩).trace
        = before ++ [Op.mkstemp 5,
                     Op.unlink,
                     Op.fdopen 5,
                     Op.fwrite bytes,
                     Op.fflush,
                     Op.zwp_virtual_keyboard_v1_keymap WL_KEYBOARD_KEYMAP_FORMAT_XKB_V1
                       5 size,
                     Op.wl_display_roundtrip,
                     Op.fclose 5]
      ∧ (∀ op ∈ before, op ≠ Op.mkstemp 5 ∧ op ≠ Op.unlink ∧ op ≠ Op.fclose 5
          ∧ op ≠ Op.wl_display_roundtrip) :=
  keymap_file_lifecycle full_compositor ⟨some ⟨1, 7⟩, some ⟨2, 1⟩⟩ 5 (by decide)
    (by decide)

end Wpadremap
